import Mathlib

/-!
Verification development for the `ts-async-either` library: a shallow
embedding of its `Either` / `Left` / `Right` sum type, the
`EitherUnwrapError` error class, and the promise-backed `AsyncEither`
wrapper, together with theorems settling the specification claims.

Modelling conventions:
* The two concrete classes `Left<L,R>` / `Right<L,R>` become the two
  constructors of one inductive `Either L R`; each abstract method whose
  body is split over the two classes becomes one Lean function matching on
  the constructor, each branch transcribing the corresponding class body.
* A TypeScript method that can throw is embedded with result type
  `Except`; a callback that may throw is a function into `Except`.
* `console.log` / `console.error` logging performed by the `tap` family is
  made observable as a second component of type `List (String ⊕ ε)`:
  `Sum.inl s` records `console.log(s)`, `Sum.inr err` records
  `console.error(err)` for the caught thrown value `err`.
* Settled promises are the inductive `Promise E A` (fulfilled or
  rejected); `async`/`await` sequencing is `Promise.bind`.
-/

namespace TsAsyncEither

/-- The error class thrown by `unwrap`/`unwrapError` on the wrong variant
(`src/errors/either-unwrap.error.ts`). -/
structure EitherUnwrapError where
  message : String
  code : String
deriving DecidableEq, Repr

/-- `EitherUnwrapError.DEFAULT_CODE`. -/
def EitherUnwrapError.defaultCode : String := "EITHER_UNWRAP_ERROR"

/-- `EitherUnwrapError.DEFAULT_MESSAGE`. -/
def EitherUnwrapError.defaultMessage : String := "Either unwrap error"

/-- `new EitherUnwrapError(message)`: the one-argument constructor call,
which leaves `code` at its default. -/
def EitherUnwrapError.withMessage (message : String) : EitherUnwrapError :=
  ⟨message, EitherUnwrapError.defaultCode⟩

/-- The `Either<L,R>` contract with its two closed variants `Left` (an
error of type `L`) and `Right` (a value of type `R`). -/
inductive Either (L R : Type) where
  | left (error : L) : Either L R
  | right (value : R) : Either L R
deriving DecidableEq, Repr

/-- `left(error)` factory (`src/either/left.ts`). -/
def left {L R : Type} (error : L) : Either L R := Either.left error

/-- `right(value)` factory (`src/either/right.ts`). -/
def right {L R : Type} (value : R) : Either L R := Either.right value

namespace Either

variable {L R T : Type}

/-- `map`: `Left.map()` returns `new Left(this.error)`; `Right.map(mapper)`
returns `new Right(mapper(this.value))`. -/
def map (x : Either L R) (mapper : R → T) : Either L T :=
  match x with
  | Either.left error => Either.left error
  | Either.right value => Either.right (mapper value)

/-- `mapError`: `Left.mapError(fn)` returns `new Left(fn(this.error))`;
`Right.mapError()` returns `new Right(this.value)`. -/
def mapError (x : Either L R) (fn : L → T) : Either T R :=
  match x with
  | Either.left error => Either.left (fn error)
  | Either.right value => Either.right value

/-- `filter`: `Left.filter()` returns `new Left(this.error)`;
`Right.filter(predicate, errorFactory)` returns `new Right(this.value)`
when the predicate holds and `new Left(errorFactory(this.value))`
otherwise. -/
def filter (x : Either L R) (predicate : R → Bool) (errorFactory : R → L) :
    Either L R :=
  match x with
  | Either.left error => Either.left error
  | Either.right value =>
    if predicate value then Either.right value
    else Either.left (errorFactory value)

/-- `flatMap`: `Left.flatMap()` returns `new Left(this.error)`;
`Right.flatMap(mapper)` returns `mapper(this.value)`. -/
def flatMap (x : Either L R) (mapper : R → Either L T) : Either L T :=
  match x with
  | Either.left error => Either.left error
  | Either.right value => mapper value

/-- `getOrElse`: `Left.getOrElse(defaultValue)` returns `defaultValue`;
`Right.getOrElse()` returns `this.value`. -/
def getOrElse (x : Either L R) (defaultValue : R) : R :=
  match x with
  | Either.left _ => defaultValue
  | Either.right value => value

/-- `getErrorOrElse`: `Left.getErrorOrElse()` returns `this.error`;
`Right.getErrorOrElse(defaultError)` returns `defaultError`. -/
def getErrorOrElse (x : Either L R) (defaultError : L) : L :=
  match x with
  | Either.left error => error
  | Either.right _ => defaultError

/-- `isRight` variant predicate. -/
def isRight (x : Either L R) : Bool :=
  match x with
  | Either.left _ => false
  | Either.right _ => true

/-- `isLeft` variant predicate. -/
def isLeft (x : Either L R) : Bool :=
  match x with
  | Either.left _ => true
  | Either.right _ => false

/-- `unwrap`: `Right.unwrap()` returns `this.value`; `Left.unwrap()`
throws `new EitherUnwrapError('Cannot unwrap Left instance')`. -/
def unwrap (x : Either L R) : Except EitherUnwrapError R :=
  match x with
  | Either.left _ =>
    Except.error (EitherUnwrapError.withMessage "Cannot unwrap Left instance")
  | Either.right value => Except.ok value

/-- `unwrapError`: `Left.unwrapError()` returns `this.error`;
`Right.unwrapError()` throws
`new EitherUnwrapError('Cannot unwrapError Right instance')`. -/
def unwrapError (x : Either L R) : Except EitherUnwrapError L :=
  match x with
  | Either.left error => Except.ok error
  | Either.right _ =>
    Except.error
      (EitherUnwrapError.withMessage "Cannot unwrapError Right instance")

/-- `tap`: `Left.tap()` returns `this` with no logging; `Right.tap(fn)`
runs `fn(this.value)` in a try/catch whose catch arm logs
`'[Either/Right] Error on tap'` and the thrown value, then returns
`this`. The second component is the emitted log. -/
def tap {ε : Type} (x : Either L R) (fn : R → Except ε PUnit) :
    Either L R × List (String ⊕ ε) :=
  match x with
  | Either.left error => (Either.left error, [])
  | Either.right value =>
    match fn value with
    | Except.ok _ => (Either.right value, [])
    | Except.error err =>
      (Either.right value,
        [Sum.inl "[Either/Right] Error on tap", Sum.inr err])

/-- `tapError`: `Right.tapError()` returns `this` with no logging;
`Left.tapError(fn)` runs `fn(this.error)` in a try/catch whose catch arm
logs `'[Either/Left] Error on tapError'` and the thrown value, then
returns `this`. -/
def tapError {ε : Type} (x : Either L R) (fn : L → Except ε PUnit) :
    Either L R × List (String ⊕ ε) :=
  match x with
  | Either.left error =>
    match fn error with
    | Except.ok _ => (Either.left error, [])
    | Except.error err =>
      (Either.left error,
        [Sum.inl "[Either/Left] Error on tapError", Sum.inr err])
  | Either.right value => (Either.right value, [])

/-- `tapBoth`: `Left.tapBoth(rightFn, leftFn)` calls `tapError(leftFn)`
when `leftFn` is non-null and otherwise returns `this`;
`Right.tapBoth(rightFn)` calls `tap(rightFn)` when `rightFn` is non-null
and otherwise returns `this`. -/
def tapBoth {ε : Type} (x : Either L R) (rightFn : Option (R → Except ε PUnit))
    (leftFn : Option (L → Except ε PUnit)) : Either L R × List (String ⊕ ε) :=
  match x with
  | Either.left error =>
    match leftFn with
    | Option.some fn => Either.tapError (Either.left error) fn
    | Option.none => (Either.left error, [])
  | Either.right value =>
    match rightFn with
    | Option.some fn => Either.tap (Either.right value) fn
    | Option.none => (Either.right value, [])

/-- `toResult`: `Left.toResult()` is `{success:false, error}`;
`Right.toResult()` is `{success:true, value}` — modelled as a sum whose
left side carries the error and right side the value. -/
def toResult (x : Either L R) : L ⊕ R :=
  match x with
  | Either.left error => Sum.inl error
  | Either.right value => Sum.inr value

end Either

/-- A settled host promise: fulfilled with a value of type `A` or rejected
with a reason of type `E` (a thrown exception or rejection value). -/
inductive Promise (E A : Type) where
  | fulfilled (v : A) : Promise E A
  | rejected (e : E) : Promise E A
deriving DecidableEq, Repr

namespace Promise

variable {E A B : Type}

/-- `p.then(f)` for a callback `f` that cannot throw: a fulfilled value is
transformed, a rejection passes through. -/
def thenPure (p : Promise E A) (f : A → B) : Promise E B :=
  match p with
  | Promise.fulfilled v => Promise.fulfilled (f v)
  | Promise.rejected e => Promise.rejected e

/-- `await p; continue`: sequencing inside an `async` function — the
continuation may itself throw/reject; a rejection of `p` propagates. -/
def bind (p : Promise E A) (f : A → Promise E B) : Promise E B :=
  match p with
  | Promise.fulfilled v => f v
  | Promise.rejected e => Promise.rejected e

/-- `p.catch(h)` for a handler `h` that cannot throw: a rejection is
converted into a fulfilled value, a fulfilled value passes through. -/
def catchPure (p : Promise E A) (h : E → A) : Promise E A :=
  match p with
  | Promise.fulfilled v => Promise.fulfilled v
  | Promise.rejected e => Promise.fulfilled (h e)

end Promise

/-- The argument accepted by the `AsyncEither` constructor after
`Promise.resolve` has normalized it to a settled promise: the promise
resolves either to a value that is an `Either` instance (`Sum.inl`, the
case where `result instanceof Either` is true) or to a plain value
(`Sum.inr`). -/
def CtorArg (L R : Type) : Type := Either L R ⊕ R

/-- `AsyncEither<L,R>`: owns one internal promise of an `Either`
(`private readonly promise`). -/
structure AsyncEither (L R : Type) where
  promise : Promise L (Either L R)

namespace AsyncEither

variable {L R T : Type}

/-- The `then` callback inside the constructor:
`(result) => { if (result instanceof Either) return result; return right(result); }`. -/
def ctorNormalize (result : CtorArg L R) : Either L R :=
  match result with
  | Sum.inl e => e
  | Sum.inr v => right v

/-- `new AsyncEither(promiseOrEither)`: the constructor body
`Promise.resolve(promiseOrEither).then(normalize).catch((error) => left(error))`.
An `Either` passed directly arrives as `Promise.fulfilled (Sum.inl e)`,
since `Promise.resolve` of a non-thenable fulfills with it. -/
def make (promiseOrEither : Promise L (CtorArg L R)) : AsyncEither L R :=
  ⟨Promise.catchPure (Promise.thenPure promiseOrEither ctorNormalize)
    (fun error => left error)⟩

/-- `AsyncEither.tryCatch(promise)`: `new AsyncEither(promise)`. -/
def tryCatch (promise : Promise L (CtorArg L R)) : AsyncEither L R :=
  make promise

/-- `AsyncEither.fromPromise(promise)`: `AsyncEither.tryCatch(promise)`. -/
def fromPromise (promise : Promise L (CtorArg L R)) : AsyncEither L R :=
  tryCatch promise

/-- `AsyncEither.fromEither(either)`: `new AsyncEither(either)`; the bare
`Either` argument reaches the constructor as a promise fulfilled with an
`Either` instance. -/
def fromEither (either : Either L R) : AsyncEither L R :=
  make (Promise.fulfilled (Sum.inl either))

/-- `chain(transform)` (private): `this.promise.then(transform)` — the
`transform` is an `async` function and may reject — wrapped by
`new AsyncEither(...)`. The values the new promise resolves with are
`Either` instances, so they enter the constructor on the
`instanceof Either` side (`Sum.inl`). -/
def chain (a : AsyncEither L R) (transform : Either L R → Promise L (Either L T)) :
    AsyncEither L T :=
  make (Promise.thenPure (Promise.bind a.promise transform) Sum.inl)

/-- `map(fn)`: via `chain`; on Left returns `left(either.unwrapError())`,
on Right awaits `fn(either.unwrap())` — a sync return is
`Promise.fulfilled`, a throw/rejection is `Promise.rejected` — and wraps
the result in `right(...)`. -/
def map (a : AsyncEither L R) (fn : R → Promise L T) : AsyncEither L T :=
  a.chain fun either =>
    match either with
    | Either.left error => Promise.fulfilled (left error)
    | Either.right value =>
      Promise.bind (fn value) fun mappedValue =>
        Promise.fulfilled (right mappedValue)

/-- The three shapes `flatMap`'s callback may return: a synchronous
`Either`, a promise of an `Either`, or another `AsyncEither`. -/
inductive FlatMapRes (L R : Type) where
  | either (e : Either L R) : FlatMapRes L R
  | promise (p : Promise L (Either L R)) : FlatMapRes L R
  | async (a : AsyncEither L R) : FlatMapRes L R

/-- `flatMap(fn)`: via `chain`; on Left returns
`left(either.unwrapError())`; on Right evaluates
`const result = await fn(either.unwrap())` and adopts the resulting
`Either` computation: a plain `Either` is returned as-is, a promise of an
`Either` is awaited, and an `AsyncEither` contributes its internal
`result.promise` (awaiting the thenable wrapper and returning
`result.promise` settle identically). -/
def flatMap (a : AsyncEither L R) (fn : R → FlatMapRes L T) : AsyncEither L T :=
  a.chain fun either =>
    match either with
    | Either.left error => Promise.fulfilled (left error)
    | Either.right value =>
      match fn value with
      | FlatMapRes.either e => Promise.fulfilled e
      | FlatMapRes.promise p => p
      | FlatMapRes.async inner => inner.promise

/-- `mapError(fn)`: via `chain`; on Right returns
`right(either.unwrap())`, on Left awaits `fn(either.unwrapError())` and
wraps the result in `left(...)`. -/
def mapError (a : AsyncEither L R) (fn : L → Promise L L) : AsyncEither L R :=
  a.chain fun either =>
    match either with
    | Either.right value => Promise.fulfilled (right value)
    | Either.left error =>
      Promise.bind (fn error) fun mappedError =>
        Promise.fulfilled (left mappedError)

/-- The default-value argument of `getOrElse`/`getErrorOrElse`: either a
plain value or a zero-argument producer function
(`defaultValue instanceof Function` distinguishes the two); the producer
may return a plain value or a promise, both modelled as a promise. -/
inductive OrElseArg (E A : Type) where
  | value (v : A) : OrElseArg E A
  | producer (f : PUnit → Promise E A) : OrElseArg E A

/-- `getOrElse(defaultValue)`: awaits `this.promise`; if the settled
`Either` is a Right, returns its value; otherwise returns the default,
calling it first when it is a function. -/
def getOrElse (a : AsyncEither L R) (defaultValue : OrElseArg L R) :
    Promise L R :=
  Promise.bind a.promise fun either =>
    match either with
    | Either.right value => Promise.fulfilled value
    | Either.left _ =>
      match defaultValue with
      | OrElseArg.value v => Promise.fulfilled v
      | OrElseArg.producer f => f PUnit.unit

/-- `getErrorOrElse(defaultError)`: awaits `this.promise`; if the settled
`Either` is a Left, returns its error; otherwise returns the default,
calling it first when it is a function. -/
def getErrorOrElse (a : AsyncEither L R) (defaultError : OrElseArg L L) :
    Promise L L :=
  Promise.bind a.promise fun either =>
    match either with
    | Either.left error => Promise.fulfilled error
    | Either.right _ =>
      match defaultError with
      | OrElseArg.value v => Promise.fulfilled v
      | OrElseArg.producer f => f PUnit.unit

/-- `tap(fn)`: via `chain`; returns `either` unchanged when it is not a
Right; on Right runs `await fn(...)` inside try/catch — both the
fulfilled and the rejected outcome (the catch arm logs via
`console.error` and continues) end with `return either`. -/
def tap {ε : Type} (a : AsyncEither L R) (fn : R → Promise ε PUnit) :
    AsyncEither L R :=
  a.chain fun either =>
    match either with
    | Either.left error => Promise.fulfilled (Either.left error)
    | Either.right value =>
      match fn value with
      | Promise.fulfilled _ => Promise.fulfilled (Either.right value)
      | Promise.rejected _ => Promise.fulfilled (Either.right value)

/-- `tapError(fn)`: via `chain`; returns `either` unchanged when it is
not a Left; on Left runs `await fn(...)` inside try/catch — both
outcomes end with `return either`. -/
def tapError {ε : Type} (a : AsyncEither L R) (fn : L → Promise ε PUnit) :
    AsyncEither L R :=
  a.chain fun either =>
    match either with
    | Either.right value => Promise.fulfilled (Either.right value)
    | Either.left error =>
      match fn error with
      | Promise.fulfilled _ => Promise.fulfilled (Either.left error)
      | Promise.rejected _ => Promise.fulfilled (Either.left error)

/-- `tapBoth(rightFn, leftFn)`:
`new AsyncEither(this.promise.then(async either => ...))` — the callback
awaits `this.tap(rightFn)` (resp. `this.tapError(leftFn)`) when the
matching callback is supplied, discards that result, and returns
`either`; awaiting an `AsyncEither` produced by the constructor cannot
reject, so every branch resolves with `either`. -/
def tapBoth {ε : Type} (a : AsyncEither L R)
    (rightFn : Option (R → Promise ε PUnit))
    (leftFn : Option (L → Promise ε PUnit)) : AsyncEither L R :=
  make (Promise.thenPure
    (Promise.bind a.promise fun either =>
      match either, rightFn, leftFn with
      | Either.right value, Option.some _, _ =>
        Promise.fulfilled (Either.right value)
      | Either.left error, _, Option.some _ =>
        Promise.fulfilled (Either.left error)
      | e, _, _ => Promise.fulfilled e)
    Sum.inl)

/-- `isRight()`: awaits settlement and tests the variant. -/
def isRight (a : AsyncEither L R) : Promise L Bool :=
  Promise.bind a.promise fun either => Promise.fulfilled either.isRight

/-- `isLeft()`: awaits settlement and tests the variant. -/
def isLeft (a : AsyncEither L R) : Promise L Bool :=
  Promise.bind a.promise fun either => Promise.fulfilled either.isLeft

end AsyncEither

/-- `asyncRight(value)`: `AsyncEither.fromEither(right(value))`. -/
def asyncRight {L R : Type} (value : R) : AsyncEither L R :=
  AsyncEither.fromEither (right value)

/-- `asyncLeft(error)`: `AsyncEither.fromEither(left(error))`. -/
def asyncLeft {L R : Type} (error : L) : AsyncEither L R :=
  AsyncEither.fromEither (left error)

/-- An `Either` object with its heap identity made explicit: `id` is the
allocation identity of the instance, `val` its (immutable) payload and
variant. `new Left(...)` / `new Right(...)` allocate an instance under a
caller-supplied fresh id; `return this` keeps the receiver's id. This
refines the plain `Either` model to settle reference-identity claims. -/
structure EitherInst (L R : Type) where
  id : Nat
  val : Either L R
deriving DecidableEq, Repr

namespace EitherInst

variable {L R T : Type}

/-- `map` at the instance level: both class bodies allocate
(`new Left(this.error)` / `new Right(mapper(this.value))`), so the result
carries the fresh id. -/
def map (x : EitherInst L R) (mapper : R → T) (fresh : Nat) : EitherInst L T :=
  match x.val with
  | Either.left error => ⟨fresh, Either.left error⟩
  | Either.right value => ⟨fresh, Either.right (mapper value)⟩

/-- `mapError` at the instance level: both class bodies allocate. -/
def mapError (x : EitherInst L R) (fn : L → T) (fresh : Nat) : EitherInst T R :=
  match x.val with
  | Either.left error => ⟨fresh, Either.left (fn error)⟩
  | Either.right value => ⟨fresh, Either.right value⟩

/-- `filter` at the instance level: every branch allocates
(`new Left(this.error)`, `new Right(this.value)`, or
`new Left(errorFactory(this.value))`). -/
def filter (x : EitherInst L R) (predicate : R → Bool) (errorFactory : R → L)
    (fresh : Nat) : EitherInst L R :=
  match x.val with
  | Either.left error => ⟨fresh, Either.left error⟩
  | Either.right value =>
    if predicate value then ⟨fresh, Either.right value⟩
    else ⟨fresh, Either.left (errorFactory value)⟩

/-- `flatMap` at the instance level: `Left.flatMap()` allocates
`new Left(this.error)`; `Right.flatMap(mapper)` returns
`mapper(this.value)` — whatever instance the mapper produced. -/
def flatMap (x : EitherInst L R) (mapper : R → EitherInst L T) (fresh : Nat) :
    EitherInst L T :=
  match x.val with
  | Either.left error => ⟨fresh, Either.left error⟩
  | Either.right value => mapper value

/-- `tap` at the instance level: `Left.tap()` is `return this`;
`Right.tap(fn)` runs `fn` for its side effect and then `return this` —
no branch allocates. -/
def tap {ε : Type} (x : EitherInst L R) (fn : R → Except ε PUnit) :
    EitherInst L R :=
  match x.val with
  | Either.left _ => x
  | Either.right value =>
    match fn value with
    | _ => x

/-- `tapError` at the instance level: `Right.tapError()` is
`return this`; `Left.tapError(fn)` runs `fn` and then `return this`. -/
def tapError {ε : Type} (x : EitherInst L R) (fn : L → Except ε PUnit) :
    EitherInst L R :=
  match x.val with
  | Either.right _ => x
  | Either.left error =>
    match fn error with
    | _ => x

/-- `tapBoth` at the instance level: delegates to `tap`/`tapError` when
the applicable callback is supplied, otherwise `return this`. -/
def tapBoth {ε : Type} (x : EitherInst L R)
    (rightFn : Option (R → Except ε PUnit))
    (leftFn : Option (L → Except ε PUnit)) : EitherInst L R :=
  match x.val with
  | Either.left _ =>
    match leftFn with
    | Option.some fn => x.tapError fn
    | Option.none => x
  | Either.right _ =>
    match rightFn with
    | Option.some fn => x.tap fn
    | Option.none => x

end EitherInst

/-!
Theorems settling the specification claims.
-/

/-- Claim C2: `right(v).unwrap()` returns `v`, `left(e).unwrapError()`
returns `e`, `left(e).unwrap()` throws an `EitherUnwrapError` with
message `"Cannot unwrap Left instance"`, and `right(v).unwrapError()`
throws an `EitherUnwrapError` with message
`"Cannot unwrapError Right instance"` (both with the default code). -/
theorem c2_unwrap_contract : ∀ (L R : Type) (v : R) (e : L),
    (right v : Either L R).unwrap = Except.ok v
    ∧ (left e : Either L R).unwrapError = Except.ok e
    ∧ (left e : Either L R).unwrap =
        Except.error
          ⟨"Cannot unwrap Left instance", EitherUnwrapError.defaultCode⟩
    ∧ (right v : Either L R).unwrapError =
        Except.error
          ⟨"Cannot unwrapError Right instance", EitherUnwrapError.defaultCode⟩ :=
  fun _ _ _ _ => ⟨rfl, rfl, rfl, rfl⟩

/-- Claim C3: the synchronous `map` satisfies the functor laws for both
variants: mapping the identity is the identity, and mapping `f` then `g`
equals mapping the composition applying `f` then `g`. -/
theorem c3_map_functor_laws :
    ∀ (L R T U : Type) (x : Either L R) (f : R → T) (g : T → U),
    x.map (fun v => v) = x
    ∧ (x.map f).map g = x.map (fun v => g (f v)) := by
  intro L R T U x f g
  constructor
  · cases x <;> rfl
  · cases x <;> rfl

/-- Claim C5: `right(v).filter(p, ef)` yields `Right v` when `p v` is
true and `Left (ef v)` when `p v` is false; `left(e).filter(p, ef)`
yields `Left e` for every predicate and error factory. -/
theorem c5_filter_contract :
    ∀ (L R : Type) (v : R) (p : R → Bool) (ef : R → L) (e : L),
    (p v = true → (right v : Either L R).filter p ef = right v)
    ∧ (p v = false → (right v : Either L R).filter p ef = left (ef v))
    ∧ (∀ (q : R → Bool) (qf : R → L),
        (left e : Either L R).filter q qf = left e) := by
  intro L R v p ef e
  refine ⟨fun hp => ?_, fun hp => ?_, fun q qf => rfl⟩
  · simp [Either.filter, right, hp]
  · simp [Either.filter, right, left, hp]

/-- Witness for C5 at concrete inputs: filtering `right 5` with the
positivity predicate keeps the Right, filtering `right 0` converts to a
Left built by the error factory. -/
theorem c5_filter_contract_witness :
    (right 5 : Either String Nat).filter (fun n => decide (0 < n)) toString
        = right 5
    ∧ (right 0 : Either String Nat).filter (fun n => decide (0 < n)) toString
        = left "0" :=
  ⟨(c5_filter_contract String Nat 5 (fun n => decide (0 < n)) toString "x").1
      (by decide),
    (c5_filter_contract String Nat 0 (fun n => decide (0 < n)) toString "x").2.1
      (by decide)⟩

/-- Claim C6: `left(e).map(f)` yields a Left holding `e` unchanged and
`left(e).flatMap(f)` yields a Left holding `e`, both for every `f` (so
neither can depend on invoking `f`); `right(v).flatMap(f)` equals `f v`,
flattening one level. -/
theorem c6_left_absorption :
    ∀ (L R T : Type) (e : L) (g : R → T) (f : R → Either L T) (v : R),
    (left e : Either L R).map g = left e
    ∧ (left e : Either L R).flatMap f = left e
    ∧ (right v : Either L R).flatMap f = f v :=
  fun _ _ _ _ _ _ _ => ⟨rfl, rfl, rfl⟩

/-- Claim C7: `tap`, `tapError` and `tapBoth` return the original Either
unchanged for every callback, including throwing ones (so a callback
exception never propagates and never changes variant or payload); a
throwing callback is logged (the fixed message plus the thrown value);
and the `AsyncEither` tap family likewise settles to the original Either
for every callback outcome. -/
theorem c7_tap_swallows :
    ∀ (L R ε : Type) (x : Either L R) (f : R → Except ε PUnit)
      (g : L → Except ε PUnit) (rf : Option (R → Except ε PUnit))
      (lf : Option (L → Except ε PUnit)),
    (x.tap f).fst = x
    ∧ (x.tapError g).fst = x
    ∧ (x.tapBoth rf lf).fst = x
    ∧ (∀ (v : R) (err : ε),
        (right v : Either L R).tap (fun _ => Except.error err) =
          (right v, [Sum.inl "[Either/Right] Error on tap", Sum.inr err]))
    ∧ (∀ (e : L) (err : ε),
        (left e : Either L R).tapError (fun _ => Except.error err) =
          (left e, [Sum.inl "[Either/Left] Error on tapError", Sum.inr err]))
    ∧ (∀ (either : Either L R) (fn : R → Promise ε PUnit),
        ((AsyncEither.fromEither either).tap fn).promise =
          Promise.fulfilled either)
    ∧ (∀ (either : Either L R) (fn : L → Promise ε PUnit),
        ((AsyncEither.fromEither either).tapError fn).promise =
          Promise.fulfilled either)
    ∧ (∀ (either : Either L R) (prf : Option (R → Promise ε PUnit))
          (plf : Option (L → Promise ε PUnit)),
        ((AsyncEither.fromEither either).tapBoth prf plf).promise =
          Promise.fulfilled either) := by
  intro L R ε x f g rf lf
  refine ⟨?_, ?_, ?_, fun v err => rfl, fun e err => rfl, ?_, ?_, ?_⟩
  · cases x with
    | left e => rfl
    | right v => cases hf : f v <;> simp [Either.tap, hf]
  · cases x with
    | left e => cases hg : g e <;> simp [Either.tapError, hg]
    | right v => rfl
  · cases x with
    | left e =>
      cases lf with
      | none => rfl
      | some fn =>
        cases hfn : fn e <;> simp [Either.tapBoth, Either.tapError, hfn]
    | right v =>
      cases rf with
      | none => rfl
      | some fn => cases hfn : fn v <;> simp [Either.tapBoth, Either.tap, hfn]
  · intro either fn
    cases either with
    | left e => rfl
    | right v =>
      cases hfn : fn v <;>
        simp [AsyncEither.tap, AsyncEither.chain, AsyncEither.make,
          AsyncEither.fromEither, AsyncEither.ctorNormalize, Promise.bind,
          Promise.thenPure, Promise.catchPure, hfn]
  · intro either fn
    cases either with
    | left e =>
      cases hfn : fn e <;>
        simp [AsyncEither.tapError, AsyncEither.chain, AsyncEither.make,
          AsyncEither.fromEither, AsyncEither.ctorNormalize, Promise.bind,
          Promise.thenPure, Promise.catchPure, hfn]
    | right v => rfl
  · intro either prf plf
    cases either with
    | left e => cases plf <;> rfl
    | right v => cases prf <;> rfl

/-- Claim C8: `getOrElse` and `getErrorOrElse` are total non-throwing
accessors: `right(v).getOrElse(d) = v`, `left(e).getOrElse(d) = d`,
`left(e).getErrorOrElse(de) = e`, `right(v).getErrorOrElse(de) = de`;
the AsyncEither versions await settlement and apply the same logic, and
a producer default is evaluated only in the branch that needs it: on a
Right the result is `v` for every default argument (the producer is
never consulted), while on a Left the producer's own result is
returned. -/
theorem c8_get_or_else_contract :
    ∀ (L R : Type) (v : R) (e : L) (d : R) (de : L),
    (right v : Either L R).getOrElse d = v
    ∧ (left e : Either L R).getOrElse d = d
    ∧ (left e : Either L R).getErrorOrElse de = e
    ∧ (right v : Either L R).getErrorOrElse de = de
    ∧ (∀ (darg : AsyncEither.OrElseArg L R),
        (asyncRight v : AsyncEither L R).getOrElse darg = Promise.fulfilled v)
    ∧ ((asyncLeft e : AsyncEither L R).getOrElse (AsyncEither.OrElseArg.value d)
        = Promise.fulfilled d)
    ∧ (∀ (f : PUnit → Promise L R),
        (asyncLeft e : AsyncEither L R).getOrElse
          (AsyncEither.OrElseArg.producer f) = f PUnit.unit)
    ∧ (∀ (darg : AsyncEither.OrElseArg L L),
        (asyncLeft e : AsyncEither L R).getErrorOrElse darg =
          Promise.fulfilled e)
    ∧ ((asyncRight v : AsyncEither L R).getErrorOrElse
        (AsyncEither.OrElseArg.value de) = Promise.fulfilled de)
    ∧ (∀ (f : PUnit → Promise L L),
        (asyncRight v : AsyncEither L R).getErrorOrElse
          (AsyncEither.OrElseArg.producer f) = f PUnit.unit) :=
  fun _ _ _ _ _ _ =>
    ⟨rfl, rfl, rfl, rfl, fun _ => rfl, rfl, fun _ => rfl, fun _ => rfl, rfl,
      fun _ => rfl⟩

/-- Claim C1: the AsyncEither constructor's promise always settles
fulfilled with an Either (never rejected), for every input promise; an
input rejected with reason `e` settles to `Left e`; a rejection produced
by a `map` or `flatMap` transformer during the asynchronous step is
captured into a Left; and `tryCatch` of a rejected promise settles to an
Either whose `unwrapError()` returns the rejection reason. -/
theorem c1_never_rejects :
    ∀ (L R T : Type) (input : Promise L (CtorArg L R)) (e : L) (v : R)
      (g : R → L),
    (∃ either, (AsyncEither.make input).promise = Promise.fulfilled either)
    ∧ ((AsyncEither.make (Promise.rejected e : Promise L (CtorArg L R))).promise
        = Promise.fulfilled (left e))
    ∧ (((asyncRight v : AsyncEither L R).map
          (fun x => (Promise.rejected (g x) : Promise L T))).promise =
        Promise.fulfilled (left (g v)))
    ∧ (((asyncRight v : AsyncEither L R).flatMap
          (fun x => AsyncEither.FlatMapRes.promise
            (Promise.rejected (g x) : Promise L (Either L T)))).promise =
        Promise.fulfilled (left (g v)))
    ∧ ((AsyncEither.tryCatch
          (Promise.rejected e : Promise L (CtorArg L R))).promise =
        Promise.fulfilled (left e))
    ∧ ((AsyncEither.fromPromise
          (Promise.rejected e : Promise L (CtorArg L R))).promise =
        Promise.fulfilled (left e))
    ∧ ((left e : Either L R).unwrapError = Except.ok e) := by
  intro L R T input e v g
  refine ⟨?_, rfl, rfl, rfl, rfl, rfl, rfl⟩
  cases input with
  | fulfilled arg => exact ⟨AsyncEither.ctorNormalize arg, rfl⟩
  | rejected err => exact ⟨left err, rfl⟩

/-- Claim C4: on an AsyncEither settled to a Left, `map` and `flatMap`
pass the Left through for every transformer (so the transformer is never
needed); on a Right holding `v`, `flatMap` normalizes all three callback
shapes — synchronous Either, promise of an Either, and AsyncEither — so
that the result settles to the produced Either itself (the AsyncEither
case adopts its internal handle), never to a Right wrapping that
Either. -/
theorem c4_flat_map_normalizes :
    ∀ (L R T : Type) (e : L) (v : R) (fnm : R → Promise L T)
      (fnf : R → AsyncEither.FlatMapRes L T) (k : R → Either L T),
    (((asyncLeft e : AsyncEither L R).map fnm).promise =
        Promise.fulfilled (left e))
    ∧ (((asyncLeft e : AsyncEither L R).flatMap fnf).promise =
        Promise.fulfilled (left e))
    ∧ (((asyncRight v : AsyncEither L R).flatMap
          (fun x => AsyncEither.FlatMapRes.either (k x))).promise =
        Promise.fulfilled (k v))
    ∧ (((asyncRight v : AsyncEither L R).flatMap
          (fun x => AsyncEither.FlatMapRes.promise
            (Promise.fulfilled (k x)))).promise =
        Promise.fulfilled (k v))
    ∧ (((asyncRight v : AsyncEither L R).flatMap
          (fun x => AsyncEither.FlatMapRes.async
            (AsyncEither.fromEither (k x)))).promise =
        Promise.fulfilled (k v)) :=
  fun _ _ _ _ _ _ _ _ => ⟨rfl, rfl, rfl, rfl, rfl⟩

/-- Claim C10: the constructor normalizes its input at settlement: a
promise resolving to a value that is already an Either settles the
wrapper to that exact Either (no Right wrapping), a promise resolving to
a non-Either value `v` settles it to `Right v`, and `tryCatch` /
`fromPromise` given a promise of an Either adopt the Either itself. -/
theorem c10_ctor_normalizes :
    ∀ (L R : Type) (e : Either L R) (v : R),
    ((AsyncEither.make (Promise.fulfilled (Sum.inl e))).promise =
        Promise.fulfilled e)
    ∧ ((AsyncEither.make
          (Promise.fulfilled (Sum.inr v) : Promise L (CtorArg L R))).promise =
        Promise.fulfilled (right v))
    ∧ ((AsyncEither.tryCatch (Promise.fulfilled (Sum.inl e))).promise =
        Promise.fulfilled e)
    ∧ ((AsyncEither.fromPromise (Promise.fulfilled (Sum.inl e))).promise =
        Promise.fulfilled e) :=
  fun _ _ _ _ => ⟨rfl, rfl, rfl, rfl⟩

/-- Counterexample to Claim C9 as stated: `tap` is a combinator of the
operation grammar, yet applied to the Left instance with allocation id 0
it returns the receiver instance itself (same id 0), not a new Either
instance distinct from the receiver. -/
theorem c9_counterexample_tap_returns_receiver :
    EitherInst.tap (⟨0, Either.left "boom"⟩ : EitherInst String Nat)
        (fun _ => (Except.ok PUnit.unit : Except String PUnit)) =
      ⟨0, Either.left "boom"⟩ :=
  rfl

/-- Claim C9 (amended): `map`, `mapError` and `filter` — and `flatMap`
applied to a Left — allocate and return a new Either instance carrying
the fresh allocation id (hence distinct from the receiver whenever the
allocator supplies an unused id); `flatMap` on a Right returns exactly
the mapper's result; the tap family (`tap`, `tapError`, `tapBoth`)
returns the receiver itself; and no combinator changes the receiver's
variant or payload (the receiver is never mutated). -/
theorem c9_allocation_discipline :
    ∀ (L R T ε : Type) (x : EitherInst L R) (f : R → T) (g : L → T)
      (p : R → Bool) (ef : R → L) (mapper : R → EitherInst L T) (fresh : Nat)
      (i : Nat) (e : L) (v : R) (tf : R → Except ε PUnit)
      (te : L → Except ε PUnit) (rf : Option (R → Except ε PUnit))
      (lf : Option (L → Except ε PUnit)),
    ((x.map f fresh).id = fresh)
    ∧ ((x.mapError g fresh).id = fresh)
    ∧ ((x.filter p ef fresh).id = fresh)
    ∧ (EitherInst.flatMap (⟨i, Either.left e⟩ : EitherInst L R) mapper fresh =
        ⟨fresh, Either.left e⟩)
    ∧ (EitherInst.flatMap (⟨i, Either.right v⟩ : EitherInst L R) mapper fresh =
        mapper v)
    ∧ (x.tap tf = x)
    ∧ (x.tapError te = x)
    ∧ (x.tapBoth rf lf = x) := by
  intro L R T ε x f g p ef mapper fresh i e v tf te rf lf
  obtain ⟨xi, xv⟩ := x
  refine ⟨?_, ?_, ?_, rfl, rfl, ?_, ?_, ?_⟩
  · cases xv <;> rfl
  · cases xv <;> rfl
  · cases xv with
    | left err => rfl
    | right value =>
      simp only [EitherInst.filter]
      cases p value <;> rfl
  · cases xv with
    | left err => rfl
    | right value => cases tf value <;> rfl
  · cases xv with
    | left err => cases te err <;> rfl
    | right value => rfl
  · cases xv with
    | left err =>
      cases lf with
      | none => rfl
      | some fn => cases fn err <;> rfl
    | right value =>
      cases rf with
      | none => rfl
      | some fn => cases fn value <;> rfl

end TsAsyncEither
